/-
Verification of sphinxext-photofinish's responsive-variant planner, variant
renderer and SVG-to-PNG conversion chain, as a shallow embedding of
`sphinxext/photofinish.py` and `sphinxext/photofinish/svgtopng.py`.

Conventions of the embedding:
  * Python integers appearing here (pixel widths/heights, configuration
    values) are non-negative in every reachable state and are modelled as
    `Nat`; where the original computes a possibly-negative intermediate
    difference, the comparison is rewritten so that `Nat` truncation agrees
    with the signed result (noted at the definition).
  * byte strings are `List Nat`, PNG chunks are pairs of a chunk type and
    chunk data.
  * fallible or dynamically typed Python computations are `Except`/`Option`
    values; an exception that escapes is an `Except.error`.
-/
import Mathlib

/-! ## VariantPlanner (photofinish.py, `visit_image`, lines 176-190) -/

/-- One step of the Python `range(a, b, s)` loop for a positive step `s`,
with explicit fuel. Since `a` grows by `s ≥ 1` per iteration while `b` is
fixed, `fuel = b - a` always suffices to exhaust the loop. -/
def pyRangeF (s : Nat) : Nat → Nat → Nat → List Nat
  | 0, _, _ => []
  | fuel + 1, a, b => if a < b then a :: pyRangeF s fuel (a + s) b else []

/-- Python `list(range(a, b, s))` for a positive step: the arithmetic
sequence `a, a + s, ...` of the values `< b`.  (`range` with step `0` is a
`ValueError` in Python; all claims assume a positive step, and the `0` case
is mapped to `[]`.) -/
def pyRange (a b s : Nat) : List Nat :=
  if 0 < s then pyRangeF s (b - a) a b else []

/-- Lines 181-182: `if not widths: widths = [im_width]`. -/
def fallbackNative (im_width : Nat) (widths : List Nat) : List Nat :=
  if widths = [] then [im_width] else widths

/-- Lines 184-187: the snap rule.  Python tests
`im_width - widths[-1] <= width_step / 2` with exact halving; multiplied
out this is `2 * (im_width - widths[-1]) ≤ width_step`, and since every
generated width is `≤ im_width` the `Nat` subtraction agrees with the
signed one.  On success the last entry is overwritten with `im_width`
(`widths[-1] = im_width`), otherwise `im_width` is appended. -/
def snapNative (im_width width_step : Nat) (widths : List Nat) : List Nat :=
  if 2 * (im_width - widths.getLastD 0) ≤ width_step then
    widths.dropLast ++ [im_width]
  else
    widths ++ [im_width]

/-- The width sequence computed in `visit_image` (lines 176-187):
`widths = list(range(width_min, min(width_max, im_width) + 1, width_step))`
followed by the empty-sequence fallback and the snap rule.  In the original
the bound `width_max` is `2 * max_viewport_width`; it is a parameter here,
as in the claim. -/
def planWidths (im_width width_min width_max width_step : Nat) : List Nat :=
  snapNative im_width width_step
    (fallbackNative im_width
      (pyRange width_min (min width_max im_width + 1) width_step))

/-- Line 190: `h = w * im_height // im_width` (Python floor division). -/
def variantHeight (w im_width im_height : Nat) : Nat :=
  w * im_height / im_width

/-! ## VariantRenderer (photofinish.py, `get_vi_snippet_data` lines 275-283
and `process_image` lines 286-320)

The renderer's interaction with PIL (decode, resize with `Image.LANCZOS`,
encode) is I/O; what is embedded is the full decision logic of
`process_image`: the format-specific save parameters, the metadata lookup
and the skip/re-attach rule. -/

/-- Bytes of the private PNG chunk type `"niVI"` (line 272). -/
def VI_CHUNK_TYPE : List Nat := [110, 105, 86, 73]

/-- A PNG private chunk: chunk type bytes and chunk data bytes. -/
structure PngChunk where
  ctype : List Nat
  cdata : List Nat
deriving DecidableEq

/-- The observable part of a decoded `PIL.Image`: whether it is a
`PngImageFile`, and its private chunks. -/
structure PyImage where
  isPngFile : Bool
  private_chunks : List PngChunk
deriving DecidableEq

/-- Lines 275-283: return the data of the first private chunk whose type is
`"niVI"`, `None` if the image is not a PNG file or has no such chunk. -/
def get_vi_snippet_data (im : PyImage) : Option (List Nat) :=
  if im.isPngFile then
    match im.private_chunks.find? (fun c => c.ctype == VI_CHUNK_TYPE) with
    | some c => some c.cdata
    | none => none
  else none

/-- The `params` dict passed to `Image.save` (lines 288-316): `optimize`,
the per-format `quality`/`speed`, and the optional `pnginfo` carrying the
re-injected chunk data together with its `after_idat` flag. -/
structure SaveParams where
  optimize : Bool
  quality : Option Nat
  speed : Option Nat
  pnginfo : Option (List Nat × Bool)
deriving DecidableEq

/-- Outcome of one `process_image` call: either the early `return` that
skips the variant (line 313), or a save of the resized image with the
given parameters. -/
inductive RenderOutcome where
  | skipped
  | saved (width height : Nat) (params : SaveParams)
deriving DecidableEq

/-- Lines 286-320.  Python's `if vi_snippet_data:` is truthiness on bytes:
it is `False` both for `None` and for the empty byte string, which is why
the `some data` case further tests `data.isEmpty`. -/
def process_image (src_ext dest_ext : String) (im : PyImage)
    (width height : Nat) : RenderOutcome :=
  let quality : Option Nat :=
    if dest_ext = ".png" ∨ dest_ext = ".jpg" ∨ dest_ext = ".jpeg" then some 80
    else if dest_ext = ".webp" then some 82
    else if dest_ext = ".avif" then some 50
    else none
  let speed : Option Nat := if dest_ext = ".avif" then some 5 else none
  if src_ext = ".png" then
    match get_vi_snippet_data im with
    | some data =>
      if data.isEmpty then
        RenderOutcome.saved width height ⟨true, quality, speed, none⟩
      else if dest_ext ≠ ".png" then
        RenderOutcome.skipped
      else
        RenderOutcome.saved width height ⟨true, quality, speed, some (data, true)⟩
    | none => RenderOutcome.saved width height ⟨true, quality, speed, none⟩
  else
    RenderOutcome.saved width height ⟨true, quality, speed, none⟩

/-- Whether a render call wrote an output file. -/
def producesOutput : RenderOutcome → Bool
  | RenderOutcome.skipped => false
  | RenderOutcome.saved _ _ _ => true

/-! ## Batch rendering (photofinish.py, `process_images` lines 260-268) -/

/-- The fields of one planned variant (dataclass `ImgData`, lines 46-51);
paths are modelled as strings. -/
structure ImgData where
  src_path : String
  dest_path : String
  width : Nat
  height : Nat
deriving DecidableEq

/-- Result of rendering one variant: `ok`, or an exception escaping
`process_image` (PIL decode/encode errors). -/
inductive RenderResult where
  | ok
  | error (msg : String)
deriving DecidableEq

/-- Lines 260-268: `for img_data in status_iterator(...): process_image(img_data)`.
There is no `try`/`except` around the call, so an exception raised by one
variant's render propagates out of the loop.  The result is the list of
variants actually rendered and the escaped exception, if any.  The
per-variant behaviour is a parameter (`process_image`'s PIL calls are I/O
and may raise). -/
def process_images (render : ImgData → RenderResult) :
    List ImgData → List ImgData × Option String
  | [] => ([], none)
  | d :: rest =>
    match render d with
    | RenderResult.ok =>
      let r := process_images render rest
      (d :: r.1, r.2)
    | RenderResult.error m => ([], some m)

/-- The exception escaping the batch loop: the error of the first variant
(in iteration order) whose render raises. -/
def firstError (render : ImgData → RenderResult) : List ImgData → Option String
  | [] => none
  | d :: rest =>
    match render d with
    | RenderResult.ok => firstError render rest
    | RenderResult.error m => some m

/-! ## The `sizes` expression (photofinish.py, `visit_image` lines 230-235)

`soup_picture.attrs` values were copied (lines 107-113) from the `img` tag
parsed by BeautifulSoup out of the wrapped handler's output, so they are
strings whenever present.  The arithmetic on them is Python's dynamic
`*` and `//`, embedded below. -/

/-- A Python value appearing in the `sizes` computation. -/
inductive PyVal where
  | intVal (n : Nat)
  | strVal (s : String)
deriving DecidableEq

/-- Python sequence repetition `s * n` for a string `s`. -/
def pyRepeatStr (s : String) : Nat → String
  | 0 => ""
  | n + 1 => s ++ pyRepeatStr s n

/-- Python `*` on the value kinds reachable here: `int * int` multiplies,
`str * int` (either order) is sequence repetition, `str * str` raises
`TypeError`. -/
def pyMul : PyVal → PyVal → Except String PyVal
  | PyVal.intVal a, PyVal.intVal b => Except.ok (PyVal.intVal (a * b))
  | PyVal.strVal s, PyVal.intVal n => Except.ok (PyVal.strVal (pyRepeatStr s n))
  | PyVal.intVal n, PyVal.strVal s => Except.ok (PyVal.strVal (pyRepeatStr s n))
  | PyVal.strVal _, PyVal.strVal _ =>
    Except.error "TypeError: cannot multiply str by str"

/-- Python `//`: defined for `int // int` (floor division, and a
`ZeroDivisionError` on zero), a `TypeError` for any string operand. -/
def pyFloorDiv : PyVal → PyVal → Except String PyVal
  | PyVal.intVal a, PyVal.intVal b =>
    if b = 0 then Except.error "ZeroDivisionError: integer division or modulo by zero"
    else Except.ok (PyVal.intVal (a / b))
  | _, _ => Except.error "TypeError: unsupported operand type(s) for //"

/-- Python f-string interpolation of a value. -/
def pyFStr : PyVal → String
  | PyVal.intVal n => toString n
  | PyVal.strVal s => s

/-- Lines 230-235: the three-case `sizes` computation.
`picture_width`/`picture_height` are the `width`/`height` attributes moved
onto the `picture` tag (strings when present, per the parse above). -/
def computeSizes (picture_width picture_height : Option PyVal)
    (im_width im_height max_viewport_width : Nat) : Except String String :=
  match picture_width with
  | some wv => Except.ok ("min(" ++ pyFStr wv ++ "px, 100vw)")
  | none =>
    match picture_height with
    | some hv =>
      match pyMul hv (PyVal.intVal im_width) with
      | Except.error e => Except.error e
      | Except.ok v1 =>
        match pyFloorDiv v1 (PyVal.intVal im_height) with
        | Except.error e => Except.error e
        | Except.ok v2 => Except.ok (pyFStr v2 ++ "px")
    | none =>
      Except.ok ("min(min(" ++ toString im_width ++ "px, 100vw), " ++
        toString max_viewport_width ++ "px)")

/-! ## The `visit_image` guard clauses (photofinish.py, lines 82-93) -/

/-- Does the char list `p` occur as a prefix of `s`? -/
def startsWithL : List Char → List Char → Bool
  | _, [] => true
  | [], _ :: _ => false
  | a :: as, b :: bs => a = b && startsWithL as bs

/-- Does the char list `p` occur contiguously inside `s`? -/
def hasSubL (p : List Char) : List Char → Bool
  | [] => p.isEmpty
  | c :: rest => startsWithL (c :: rest) p || hasSubL p rest

/-- Python `sub in s` for strings. -/
def strContains (s sub : String) : Bool :=
  hasSubL sub.toList s.toList

/-- splitting a char list on a separator character. -/
def splitOnChar (c : Char) (l : List Char) : List (List Char) :=
  l.foldr
    (fun a acc =>
      match acc with
      | [] => [[a]]
      | cur :: rest => if a = c then [] :: cur :: rest else (a :: cur) :: rest)
    [[]]

/-- The `name` of `pathlib.PurePath`: the last path component, with empty
and `"."` components dropped. -/
def pyName (uri : String) : List Char :=
  ((splitOnChar '/' uri.toList).filter
    (fun comp => !comp.isEmpty && comp != ['.'])).getLastD []

/-- Index (from the front) of the last occurrence of `c`, if any —
Python's `str.rfind` with `-1` mapped to `none`. -/
def rfindIdx (c : Char) : List Char → Option Nat
  | [] => none
  | a :: rest =>
    match rfindIdx c rest with
    | some i => some (i + 1)
    | none => if a = c then some 0 else none

/-- `pathlib.PurePath.suffix`: with `i = name.rfind('.')`, the slice
`name[i:]` when `0 < i < len(name) - 1`, else the empty string. -/
def pySuffix (uri : String) : String :=
  let name := pyName uri
  match rfindIdx '.' name with
  | none => ""
  | some i => if 0 < i ∧ i < name.length - 1 then String.mk (name.drop i) else ""

/-- Line 92: the raster/vector extensions `visit_image` processes. -/
def IMG_EXTS : List String := [".png", ".jpg", ".jpeg", ".svg"]

/-- Lines 82-93 of `visit_image`: the wrapped handler's output is appended
to the translator body first (`old_visit_image`), then the remote-URI and
extension guards `return` leaving body and variant set untouched.  The
remainder of the function (PIL, BeautifulSoup and filesystem work on the
accepted images, lines 94-254) is the `wrap` parameter. -/
def visit_image (uri old_out : String)
    (wrap : List String → List ImgData → List String × List ImgData)
    (body : List String) (img_datas : List ImgData) :
    List String × List ImgData :=
  let body2 := body ++ [old_out]
  if strContains uri "://" then (body2, img_datas)
  else if pySuffix uri ∉ IMG_EXTS then (body2, img_datas)
  else wrap body2 img_datas

/-! ## ConversionChain (svgtopng.py, `svg_to_png` lines 68-341)

`svg_to_png` tries a fixed sequence of conversion capabilities, each one
wrapped in a `manage(title)` context manager whose `__exit__` suppresses
the attempt's exception, appends its diagnostic lines to `log`, and sets
the class flag `a_command_exists` unless the exception was `NotSet`,
`NotFound` or an `ImportError`.  The environment (`which` lookups,
subprocess results, library availability, the detected Sphinx app) is a
parameter; the chain logic and message construction are embedded in
full. -/

/-- Result of invoking a resolved tool (a `subprocess.run(..., check=True)`
or an in-process library call): success, or the text of the raised
exception. -/
inductive RunResult where
  | ok
  | err (msg : String)
deriving DecidableEq

/-- Behaviour of an in-process rasterization library (cairosvg, svglib):
its `import` raises `ImportError` with the given message, or the import
succeeds and invoking it gives a `RunResult`. -/
inductive LibBehavior where
  | missing (msg : String)
  | runs (r : RunResult)
deriving DecidableEq

/-- The Sphinx configuration read by the chain when a running Sphinx app is
found (`inkscape_converter_bin`, `rsvg_converter_bin`). -/
structure SphinxCfg where
  inkscape_converter_bin : Option String
  rsvg_converter_bin : Option String
deriving DecidableEq

/-- The environment of one `svg_to_png` call: the caller's keyword path
overrides (in the Python signature's order), `shutil.which` as a
predicate, tool invocation results, the two libraries, and the detected
Sphinx app (if any). -/
structure Env where
  inkscape_path : Option String
  rsvg_convert_path : Option String
  imagemagick_path : Option String
  svgexport_path : Option String
  whichOk : String → Bool
  run : String → RunResult
  cairosvg : LibBehavior
  svglib : LibBehavior
  sphinx : Option SphinxCfg

/-- Outcome of one attempt, as classified by `manage.__exit__`
(lines 178-196): `NotSet` / `NotFound` / `ImportError` leave
`a_command_exists` untouched; any other exception marks `failed`; no
exception at all is `succeeded`. -/
inductive Outcome where
  | notSet
  | notFound
  | importFailed
  | failed
  | succeeded
deriving DecidableEq

/-- One `with manage(title)` block: its title, its outcome, and the lines
`__exit__` appends to `log`. -/
structure Attempt where
  title : String
  outcome : Outcome
  logLines : List String
deriving DecidableEq

/-- Log lines for a `NotSet` exception (line 181). -/
def notSetLines (title name : String) : List String :=
  ["    - " ++ title ++ ": " ++ name ++ " not set"]

/-- Log lines for a `NotFound` exception (lines 183-184). -/
def notFoundLines (title name path : String) : List String :=
  ["    - " ++ title ++ ": " ++ name ++ " not found",
   "        for path " ++ path]

/-- Log lines for an `ImportError` (lines 186-187). -/
def depMissingLines (title msg : String) : List String :=
  ["    - " ++ title ++ ": dependency not installed", "        " ++ msg]

/-- Log lines for a failed invocation (lines 191-192). -/
def failedLines (title msg : String) : List String :=
  ["    - " ++ title ++ ": conversion failed", "        " ++ msg]

/-- A caller-override attempt (lines 198-233): `NotSet` when the keyword
is `None` or empty (Python truthiness of `not path`), `NotFound` when
`which` fails on it, otherwise the invocation's result. -/
def overrideAttempt (title pname : String) (path : Option String)
    (env : Env) : Attempt :=
  match path with
  | none => ⟨title, Outcome.notSet, notSetLines title pname⟩
  | some p =>
    if p = "" then ⟨title, Outcome.notSet, notSetLines title pname⟩
    else if env.whichOk p then
      match env.run p with
      | RunResult.ok => ⟨title, Outcome.succeeded, []⟩
      | RunResult.err m => ⟨title, Outcome.failed, failedLines title m⟩
    else ⟨title, Outcome.notFound, notFoundLines title pname p⟩

/-- An in-process library attempt (lines 235-255). -/
def libAttempt (title : String) (b : LibBehavior) : Attempt :=
  match b with
  | LibBehavior.missing m => ⟨title, Outcome.importFailed, depMissingLines title m⟩
  | LibBehavior.runs RunResult.ok => ⟨title, Outcome.succeeded, []⟩
  | LibBehavior.runs (RunResult.err m) => ⟨title, Outcome.failed, failedLines title m⟩

/-- A system-binary attempt (lines 257-303): `NotFound` (with the given
diagnostic name) when the binary is not on the `PATH`, otherwise the
invocation's result. -/
def sysAttempt (title nfname bin : String) (env : Env) : Attempt :=
  if env.whichOk bin then
    match env.run bin with
    | RunResult.ok => ⟨title, Outcome.succeeded, []⟩
    | RunResult.err m => ⟨title, Outcome.failed, failedLines title m⟩
  else ⟨title, Outcome.notFound, notFoundLines title nfname bin⟩

/-- A Sphinx-configured binary attempt (lines 316-331), reached only when
a Sphinx app was detected: `NotSet` when the config value is `None` or
empty, `NotFound` when `which` fails, otherwise the invocation. -/
def sphinxAttempt (title nsname nfname : String) (bin : Option String)
    (env : Env) : Attempt :=
  match bin with
  | none => ⟨title, Outcome.notSet, notSetLines title nsname⟩
  | some p =>
    if p = "" then ⟨title, Outcome.notSet, notSetLines title nsname⟩
    else if env.whichOk p then
      match env.run p with
      | RunResult.ok => ⟨title, Outcome.succeeded, []⟩
      | RunResult.err m => ⟨title, Outcome.failed, failedLines title m⟩
    else ⟨title, Outcome.notFound, notFoundLines title nfname p⟩

/-- The fixed attempt sequence of `svg_to_png` (lines 198-331): the four
caller overrides (inkscape, rsvg-convert, svgexport, imagemagick), the two
libraries (cairosvg, svglib), the six system binaries (`inkscape`,
`rsvg-convert`, legacy `rsvg`, `svgexport`, `magick`, legacy `convert`),
and — only when a Sphinx app was found — the two Sphinx-configured
binaries. -/
def chainAttempts (env : Env) : List Attempt :=
  [overrideAttempt "Inkscape" "inkscape_path" env.inkscape_path env,
   overrideAttempt "rsvg-convert" "rsvg_convert_path" env.rsvg_convert_path env,
   overrideAttempt "svgexport" "svgexport_path" env.svgexport_path env,
   overrideAttempt "imagemagick" "imagemagick_path" env.imagemagick_path env,
   libAttempt "cairosvg" env.cairosvg,
   libAttempt "svglib" env.svglib,
   sysAttempt "Inkscape" "inkscape" "inkscape" env,
   sysAttempt "rsvg-convert" "rsvg-convert" "rsvg-convert" env,
   sysAttempt "rsvg-convert" "rsvg-convert" "rsvg" env,
   sysAttempt "svgexport" "svgexport" "svgexport" env,
   sysAttempt "imagemagick" "imagemagick" "magick" env,
   sysAttempt "imagemagick" "imagemagick" "convert" env]
  ++ match env.sphinx with
     | none => []
     | some cfg =>
       [sphinxAttempt "Inkscape" "inkscape_converter_bin in Sphinx\x27s conf.py"
          "inkscape_converter_bin" cfg.inkscape_converter_bin env,
        sphinxAttempt "rsvg-convert" "rsvg_converter_bin in Sphinx\x27s conf.py"
          "rsvg_converter_bin" cfg.rsvg_converter_bin env]

/-- The attempts actually executed: the chain stops at (and includes) the
first succeeding attempt. -/
def runChain : List Attempt → List Attempt
  | [] => []
  | a :: rest =>
    if a.outcome = Outcome.succeeded then [a] else a :: runChain rest

/-- The concatenated `log` of a list of attempts. -/
def chainLog (l : List Attempt) : List String :=
  (l.map Attempt.logLines).flatten

/-- First line of the error message (line 333). -/
def errHeader : String := "\nFailed to convert svg to png."

/-- The fixed `NoToolError` hint (lines 336-338). -/
def noToolMsg : String :=
  "No conversion tool was found. Please install one of: cairosvg, svglib, inkscape, rsvg-convert, svgexport, or imagemagick. If you have one of these installed, they may not be on your path. Pass your installed tool\x27s path into this function."

/-- Result of an `svg_to_png` call: a successful conversion (by the
attempt with the given title), or one of the two errors, carrying the
message lines that Python joins with newlines. -/
inductive ChainResult where
  | converted (title : String)
  | noToolError (msg : List String)
  | failedConversionError (msg : List String)
deriving DecidableEq

/-- The `with manage(...)` cascade plus the final raise (lines 198-341):
walk the attempts in order accumulating `log` and `a_command_exists`;
`return` on the first success; when the list is exhausted raise
`NoToolError` with the fixed hint if no command existed, else
`FailedConversionError` with the header plus the accumulated log. -/
def chainStep : List Attempt → List String → Bool → ChainResult
  | [], log, cmdExists =>
    if cmdExists then ChainResult.failedConversionError (errHeader :: log)
    else ChainResult.noToolError [errHeader, noToolMsg]
  | a :: rest, log, cmdExists =>
    if a.outcome = Outcome.succeeded then ChainResult.converted a.title
    else chainStep rest (log ++ a.logLines)
      (cmdExists || decide (a.outcome = Outcome.failed))

/-- `svg_to_png` over an environment. -/
def svg_to_png (env : Env) : ChainResult :=
  chainStep (chainAttempts env) [] false

/-- Is the result the `FailedConversionError` class? -/
def isFailedConversion : ChainResult → Bool
  | ChainResult.failedConversionError _ => true
  | _ => false

/-- The titles of the twelve attempts always present, in order. -/
def expectedTitles : List String :=
  ["Inkscape", "rsvg-convert", "svgexport", "imagemagick",
   "cairosvg", "svglib",
   "Inkscape", "rsvg-convert", "rsvg-convert", "svgexport",
   "imagemagick", "imagemagick"]

/-! ## Concrete inputs used by counterexamples and witnesses -/

/-- A PNG image whose `niVI` chunk is present but has empty data. -/
def im_empty_chunk : PyImage := ⟨true, [⟨VI_CHUNK_TYPE, []⟩]⟩

/-- A PNG image carrying a (nonempty) VI snippet payload. -/
def im_payload : PyImage := ⟨true, [⟨VI_CHUNK_TYPE, [7, 7]⟩]⟩

/-- An environment with no overrides, no libraries, nothing on the `PATH`
and no Sphinx app. -/
def envNone : Env :=
  ⟨none, none, none, none, fun _ => false, fun _ => RunResult.err "exit status 1",
   LibBehavior.missing "No module named \x27cairosvg\x27",
   LibBehavior.missing "No module named \x27svglib\x27", none⟩

/-- Like `envNone`, but the caller passed `inkscape_path` pointing at a
path that is not an executable. -/
def envOverrideNF : Env :=
  ⟨some "/nope/inkscape", none, none, none, fun _ => false,
   fun _ => RunResult.err "exit status 1",
   LibBehavior.missing "No module named \x27cairosvg\x27",
   LibBehavior.missing "No module named \x27svglib\x27", none⟩

/-- An environment where the caller's `inkscape_path` resolves but its
invocation fails, and nothing else is available. -/
def envFail : Env :=
  ⟨some "/usr/bin/inkscape", none, none, none,
   fun s => s == "/usr/bin/inkscape",
   fun _ => RunResult.err "Command returned non-zero exit status 1.",
   LibBehavior.missing "No module named \x27cairosvg\x27",
   LibBehavior.missing "No module named \x27svglib\x27", none⟩

/-- An environment where only cairosvg is importable and works. -/
def envLib : Env :=
  ⟨none, none, none, none, fun _ => false, fun _ => RunResult.err "exit status 1",
   LibBehavior.runs RunResult.ok,
   LibBehavior.missing "No module named \x27svglib\x27", none⟩

/-- Two planned variants sharing a source. -/
def imgA : ImgData := ⟨"src/a.png", "a.webp", 100, 50⟩

/-- Two planned variants sharing a source (second). -/
def imgB : ImgData := ⟨"src/a.png", "b.webp", 200, 100⟩

/-- A renderer behaviour where exactly the first variant's encode raises. -/
def renderFailA (d : ImgData) : RenderResult :=
  if d.dest_path == "a.webp" then RenderResult.error "broken image data"
  else RenderResult.ok

/-- A trivial stand-in for the accepted-image processing in
`visit_image` witnesses. -/
def wrapNone : List String → List ImgData → List String × List ImgData :=
  fun _ _ => ([], [])

/-! ## Planner lemmas -/

theorem pyRangeF_mem (s : Nat) :
    ∀ (fuel a b x : Nat), x ∈ pyRangeF s fuel a b → a ≤ x ∧ x < b := by
  intro fuel
  induction fuel with
  | zero => intro a b x hx; simp [pyRangeF] at hx
  | succ n ih =>
    intro a b x hx
    rw [pyRangeF] at hx
    split_ifs at hx with h
    · rcases List.mem_cons.mp hx with rfl | hx2
      · exact ⟨Nat.le_refl _, h⟩
      · have h2 := ih (a + s) b x hx2
        omega
    · simp at hx

theorem pyRangeF_pairwise (s : Nat) (hs : 0 < s) :
    ∀ (fuel a b : Nat), List.Pairwise (· < ·) (pyRangeF s fuel a b) := by
  intro fuel
  induction fuel with
  | zero => intro a b; simp [pyRangeF]
  | succ n ih =>
    intro a b
    rw [pyRangeF]
    split_ifs with h
    · refine List.pairwise_cons.mpr ⟨?_, ih (a + s) b⟩
      intro x hx
      have h2 := pyRangeF_mem s n (a + s) b x hx
      omega
    · simp

theorem pyRange_mem {a b s x : Nat} (hx : x ∈ pyRange a b s) : a ≤ x ∧ x < b := by
  unfold pyRange at hx
  split_ifs at hx with h
  · exact pyRangeF_mem s (b - a) a b x hx
  · simp at hx

theorem pyRange_pairwise (a b s : Nat) : List.Pairwise (· < ·) (pyRange a b s) := by
  unfold pyRange
  split_ifs with h
  · exact pyRangeF_pairwise s h (b - a) a b
  · simp

theorem pyRange_eq_nil (a b s : Nat) (hab : b ≤ a) : pyRange a b s = [] := by
  unfold pyRange
  have h1 : b - a = 0 := by omega
  rw [h1]
  split_ifs <;> simp [pyRangeF]

theorem getLastD_mem {α : Type} (l : List α) (d : α) (h : l ≠ []) :
    l.getLastD d ∈ l := by
  induction l generalizing d with
  | nil => exact absurd rfl h
  | cons a t ih =>
    cases t with
    | nil => simp [List.getLastD]
    | cons b u =>
      rw [List.getLastD_cons]
      exact List.mem_cons_of_mem a (ih a (by simp))

theorem getLastD_eq_getLast {α : Type} (l : List α) (d : α) (h : l ≠ []) :
    l.getLastD d = l.getLast h := by
  rw [List.getLastD_eq_getLast? d l, List.getLast?_eq_getLast_of_ne_nil h]
  rfl

theorem mem_dropLast_lt_getLast {l : List Nat} (h : l ≠ [])
    (hp : List.Pairwise (· < ·) l) : ∀ x ∈ l.dropLast, x < l.getLast h := by
  have heq := List.dropLast_append_getLast h
  intro x hx
  have hp2 : List.Pairwise (· < ·) (l.dropLast ++ [l.getLast h]) := by
    rw [heq]; exact hp
  rw [List.pairwise_append] at hp2
  exact hp2.2.2 x hx _ (by simp)

theorem mem_le_getLast {l : List Nat} (h : l ≠ [])
    (hp : List.Pairwise (· < ·) l) : ∀ x ∈ l, x ≤ l.getLast h := by
  intro x hx
  have heq := List.dropLast_append_getLast h
  rw [← heq] at hx
  rcases List.mem_append.mp hx with h1 | h1
  · exact Nat.le_of_lt (mem_dropLast_lt_getLast h hp x h1)
  · simp at h1; omega

theorem getLast?_append_singleton {α : Type} (l : List α) (a : α) :
    (l ++ [a]).getLast? = some a :=
  List.getLast?_concat l

theorem snapNative_spec (im_width width_step : Nat) (l : List Nat)
    (hs : 0 < width_step) (hne : l ≠ []) (hp : List.Pairwise (· < ·) l)
    (hle : ∀ x ∈ l, x ≤ im_width) :
    List.Pairwise (· < ·) (snapNative im_width width_step l) ∧
    (snapNative im_width width_step l).getLast? = some im_width := by
  unfold snapNative
  have hL := getLastD_eq_getLast l 0 hne
  have hLle : l.getLast hne ≤ im_width := hle _ (List.getLast_mem hne)
  split_ifs with hc
  · refine ⟨?_, getLast?_append_singleton _ _⟩
    rw [List.pairwise_append]
    refine ⟨List.Pairwise.sublist (List.dropLast_sublist l) hp,
      List.pairwise_singleton _ _, ?_⟩
    intro x hx y hy
    rw [List.mem_singleton] at hy
    subst hy
    have h1 := mem_dropLast_lt_getLast hne hp x hx
    omega
  · refine ⟨?_, getLast?_append_singleton _ _⟩
    rw [List.pairwise_append]
    refine ⟨hp, List.pairwise_singleton _ _, ?_⟩
    intro x hx y hy
    rw [List.mem_singleton] at hy
    subst hy
    have h1 := mem_le_getLast hne hp x hx
    rw [hL] at hc
    omega

theorem planWidths_main (im_width width_min width_max width_step : Nat)
    (hs : 0 < width_step) :
    List.Pairwise (· < ·) (planWidths im_width width_min width_max width_step) ∧
    (planWidths im_width width_min width_max width_step).getLast? = some im_width := by
  have hle0 : ∀ x ∈ pyRange width_min (min width_max im_width + 1) width_step,
      x ≤ im_width := by
    intro x hx
    have h1 := pyRange_mem hx
    have h2 := Nat.min_le_right width_max im_width
    omega
  unfold planWidths fallbackNative
  split_ifs with h
  · refine snapNative_spec im_width width_step [im_width] hs (by simp) (by simp) ?_
    intro x hx
    simp at hx
    omega
  · exact snapNative_spec im_width width_step _ hs h
      (pyRange_pairwise _ _ _) hle0

theorem planWidths_small (im_width width_min width_max width_step : Nat)
    (h : im_width < width_min) :
    planWidths im_width width_min width_max width_step = [im_width] := by
  have h0 : pyRange width_min (min width_max im_width + 1) width_step = [] := by
    apply pyRange_eq_nil
    have h2 := Nat.min_le_right width_max im_width
    omega
  unfold planWidths fallbackNative snapNative
  rw [h0]
  simp

/-! ## Claims C1 and C2 -/

/-- Claim C1 (confirmed): for every `nativeWidth ≥ 1`, `minWidth`,
`maxWidth` and `step > 0`, the width sequence of the planner (arithmetic
sequence bounded by `min maxWidth nativeWidth`, with the empty-sequence
fallback and the `step/2` snap rule) is strictly increasing, has no
duplicates, and ends exactly in `nativeWidth`; and when
`nativeWidth < minWidth` the result is exactly `[nativeWidth]`. -/
theorem planWidths_c1 (im_width width_min width_max width_step : Nat)
    (hn : 1 ≤ im_width) (hs : 0 < width_step) :
    List.Pairwise (· < ·) (planWidths im_width width_min width_max width_step) ∧
    (planWidths im_width width_min width_max width_step).Nodup ∧
    (planWidths im_width width_min width_max width_step).getLast? = some im_width ∧
    (im_width < width_min →
      planWidths im_width width_min width_max width_step = [im_width]) := by
  obtain ⟨h1, h2⟩ := planWidths_main im_width width_min width_max width_step hs
  exact ⟨h1, h1.imp (fun hab => Nat.ne_of_lt hab), h2,
    fun h => planWidths_small im_width width_min width_max width_step h⟩

/-- Witness for C1 at the spec's own snap example
`plan(1000, 100, 2000, 300) = [100, 400, 700, 1000]`. -/
theorem planWidths_c1_witness :
    (1 ≤ 1000 ∧ 0 < 300 ∧
      List.Pairwise (· < ·) (planWidths 1000 100 2000 300) ∧
      (planWidths 1000 100 2000 300).getLast? = some 1000) ∧
    planWidths 1000 100 2000 300 = [100, 400, 700, 1000] :=
  ⟨⟨by decide, by decide,
    (planWidths_c1 1000 100 2000 300 (by decide) (by decide)).1,
    (planWidths_c1 1000 100 2000 300 (by decide) (by decide)).2.2.1⟩,
   by decide⟩

/-- Claim C2 counterexample: the claim says the target height is
`round(targetWidth * nativeHeight / nativeWidth)` (mathematical rounding of
the exact rational).  The code computes Python floor division `//`.  For the
planned variant `w = 1` of an image with `nativeWidth = 3`,
`nativeHeight = 2` (planner inputs `minWidth = 1, maxWidth = 10, step = 1`),
the code yields `1 * 2 // 3 = 0` while rounding `2/3` yields `1`. -/
theorem variantHeight_c2_counterexample :
    1 ∈ planWidths 3 1 10 1 ∧
    variantHeight 1 3 2 = 0 ∧
    round ((1 * 2 : ℚ) / 3) = 1 ∧
    (variantHeight 1 3 2 : ℤ) ≠ round ((1 * 2 : ℚ) / 3) := by
  have hr : round ((1 * 2 : ℚ) / 3) = 1 := by
    norm_num [round_eq]
  refine ⟨by decide, by decide, hr, ?_⟩
  rw [hr]
  decide

/-- Claim C2 as amended: the target height is the floor
`⌊targetWidth * nativeHeight / nativeWidth⌋` (Python `//`), not the rounded
value; and in the special case `targetWidth = nativeWidth` the target height
equals `nativeHeight` exactly. -/
theorem variantHeight_c2 (w im_width im_height : Nat) (h : 0 < im_width) :
    variantHeight w im_width im_height =
      ⌊((w : ℚ) * (im_height : ℚ)) / (im_width : ℚ)⌋₊ ∧
    variantHeight im_width im_width im_height = im_height := by
  constructor
  · unfold variantHeight
    rw [show ((w : ℚ) * (im_height : ℚ)) = ((w * im_height : ℕ) : ℚ) by
      push_cast; ring]
    exact (@Nat.floor_div_eq_div ℚ _ _ (w * im_height) im_width).symm
  · unfold variantHeight
    exact Nat.mul_div_cancel_left im_height h

/-- Witness for the amended C2 at `w = 5`, `nativeWidth = 4`,
`nativeHeight = 3`. -/
theorem variantHeight_c2_witness :
    0 < 4 ∧
    variantHeight 5 4 3 = ⌊(((5 : Nat) : ℚ) * ((3 : Nat) : ℚ)) / ((4 : Nat) : ℚ)⌋₊ ∧
    variantHeight 4 4 3 = 3 :=
  ⟨by decide, (variantHeight_c2 5 4 3 (by decide)).1,
    (variantHeight_c2 4 4 3 (by decide)).2⟩

/-! ## Claims C3 and C4 -/

/-- Claim C3 counterexample: the claim quantifies over every PNG source
carrying the `niVI` private chunk.  For a chunk with empty data the code's
truthiness test `if vi_snippet_data:` is false, so with a non-PNG
destination the variant is rendered (not skipped) and the chunk is
dropped. -/
theorem process_image_c3_counterexample :
    get_vi_snippet_data im_empty_chunk = some [] ∧
    process_image ".png" ".webp" im_empty_chunk 10 5 =
      RenderOutcome.saved 10 5 ⟨true, some 82, none, none⟩ ∧
    process_image ".png" ".webp" im_empty_chunk 10 5 ≠ RenderOutcome.skipped := by
  refine ⟨by decide, by decide, by decide⟩

/-- Claim C3 as amended: for a PNG source whose `niVI` chunk data is
nonempty, a PNG destination re-attaches exactly that data positioned after
the image data chunk (`after_idat = true`), and any other destination skips
the variant (an empty chunk is treated as no payload). -/
theorem process_image_c3 (im : PyImage) (data : List Nat) (dest_ext : String)
    (w h : Nat) (hd : get_vi_snippet_data im = some data) (hne : data ≠ []) :
    (dest_ext = ".png" →
      process_image ".png" dest_ext im w h =
        RenderOutcome.saved w h ⟨true, some 80, none, some (data, true)⟩) ∧
    (dest_ext ≠ ".png" →
      process_image ".png" dest_ext im w h = RenderOutcome.skipped) := by
  have hemp : data.isEmpty = false := by
    cases data with
    | nil => exact absurd rfl hne
    | cons a t => rfl
  constructor
  · intro hdest
    subst hdest
    simp [process_image, hd, hemp]
  · intro hdest
    simp [process_image, hd, hemp, hdest]

/-- Witness for the amended C3: a concrete payload is preserved
byte-for-byte for a PNG destination and skipped for webp. -/
theorem process_image_c3_witness :
    get_vi_snippet_data im_payload = some [7, 7] ∧
    process_image ".png" ".png" im_payload 20 10 =
      RenderOutcome.saved 20 10 ⟨true, some 80, none, some ([7, 7], true)⟩ ∧
    process_image ".png" ".webp" im_payload 20 10 = RenderOutcome.skipped :=
  ⟨by decide,
   (process_image_c3 im_payload [7, 7] ".png" 20 10 (by decide) (by decide)).1 rfl,
   (process_image_c3 im_payload [7, 7] ".webp" 20 10 (by decide) (by decide)).2
     (by decide)⟩

/-- Claim C4 counterexample: the claim says a webp/jpeg render of a PNG
with an embedded payload "produces an output file (without the payload)".
The code instead returns before saving (line 313): no output is written. -/
theorem process_image_c4_counterexample :
    process_image ".png" ".webp" im_payload 10 5 = RenderOutcome.skipped ∧
    producesOutput (process_image ".png" ".webp" im_payload 10 5) = false := by
  refine ⟨by decide, by decide⟩

/-- Claim C4 as amended: for a PNG source with a nonempty payload and a
webp or jpeg destination, the renderer skips the variant — it produces no
output file — and raises no error (the skip is a plain `return`). -/
theorem process_image_c4 (im : PyImage) (data : List Nat) (dest_ext : String)
    (w h : Nat) (hd : get_vi_snippet_data im = some data) (hne : data ≠ [])
    (hdest : dest_ext = ".webp" ∨ dest_ext = ".jpg" ∨ dest_ext = ".jpeg") :
    process_image ".png" dest_ext im w h = RenderOutcome.skipped ∧
    producesOutput (process_image ".png" dest_ext im w h) = false := by
  have hne2 : dest_ext ≠ ".png" := by
    rcases hdest with h | h | h <;> subst h <;> decide
  have hemp : data.isEmpty = false := by
    cases data with
    | nil => exact absurd rfl hne
    | cons a t => rfl
  have h1 : process_image ".png" dest_ext im w h = RenderOutcome.skipped := by
    simp [process_image, hd, hemp, hne2]
  exact ⟨h1, by rw [h1]; rfl⟩

/-- Witness for the amended C4 at a jpeg destination. -/
theorem process_image_c4_witness :
    get_vi_snippet_data im_payload = some [7, 7] ∧ ([7, 7] : List Nat) ≠ [] ∧
    process_image ".png" ".jpg" im_payload 20 10 = RenderOutcome.skipped :=
  ⟨by decide, by decide,
   (process_image_c4 im_payload [7, 7] ".jpg" 20 10 (by decide) (by decide)
     (Or.inr (Or.inl rfl))).1⟩

/-! ## Claim C8 -/

/-- Claim C8 counterexample: the batch loop of `process_images` has no
per-variant exception handling.  With two variants where only the first
render raises, the second variant — whose own render succeeds — is not
produced: the exception aborts the loop. -/
theorem process_images_c8_counterexample :
    renderFailA imgB = RenderResult.ok ∧
    process_images renderFailA [imgA, imgB] = ([], some "broken image data") ∧
    imgB ∉ (process_images renderFailA [imgA, imgB]).1 := by
  refine ⟨by decide, by decide, by decide⟩

/-- Claim C8 as amended: an encode/decode error raised while rendering one
variant aborts the batch: the variants iterated before the failing one are
produced, the failing one and all later ones are not, and the first error
escapes to the caller. -/
theorem process_images_c8 (render : ImgData → RenderResult)
    (l : List ImgData) :
    process_images render l =
      (l.takeWhile (fun d => render d == RenderResult.ok),
       firstError render l) := by
  induction l with
  | nil => rfl
  | cons d rest ih =>
    cases h : render d with
    | ok => simp [process_images, firstError, List.takeWhile_cons, h, ih]
    | error m => simp [process_images, firstError, List.takeWhile_cons, h]

/-! ## Claim C9 -/

/-- Claim C9 (code bug): the `sizes` three-case rule.  The width case and
the no-box case produce exactly the claimed expressions, but the
explicit-height case crashes: the `height` attribute moved onto the
`picture` tag is a string (BeautifulSoup attribute of the parsed `img`
tag), so `soup_picture.attrs['height'] * im_width` is string repetition
and the following `// im_height` raises `TypeError` instead of computing
`(height * nativeWidth / nativeHeight)px`. -/
theorem computeSizes_c9 :
    computeSizes (some (PyVal.strVal "200")) none 800 600 1000 =
      Except.ok "min(200px, 100vw)" ∧
    computeSizes none none 800 600 1000 =
      Except.ok "min(min(800px, 100vw), 1000px)" ∧
    computeSizes none (some (PyVal.strVal "100")) 800 600 1000 =
      Except.error "TypeError: unsupported operand type(s) for //" := by
  refine ⟨rfl, rfl, rfl⟩

/-! ## Claim C10 -/

/-- Claim C10 (confirmed): for an image node whose URI contains `"://"` or
whose extension is not one of `.png`, `.jpg`, `.jpeg`, `.svg`,
`visit_image` leaves the translator body exactly as the wrapped handler
produced it and adds nothing to the variant set. -/
theorem visit_image_c10 (uri old_out : String)
    (wrap : List String → List ImgData → List String × List ImgData)
    (body : List String) (img_datas : List ImgData)
    (h : strContains uri "://" = true ∨ pySuffix uri ∉ IMG_EXTS) :
    visit_image uri old_out wrap body img_datas = (body ++ [old_out], img_datas) := by
  unfold visit_image
  rcases h with h | h
  · rw [if_pos h]
  · by_cases h2 : strContains uri "://" = true
    · rw [if_pos h2]
    · rw [if_neg (by simpa using h2), if_pos h]

/-- Witness for C10: a remote URI (whose extension is even an accepted
one) and a local `.gif` are both left untouched. -/
theorem visit_image_c10_witness :
    (strContains "https://example.com/img.png" "://" = true ∨
      pySuffix "https://example.com/img.png" ∉ IMG_EXTS) ∧
    visit_image "https://example.com/img.png" "<img/>" wrapNone ["x"] [] =
      (["x"] ++ ["<img/>"], []) ∧
    (strContains "diagram.gif" "://" = true ∨ pySuffix "diagram.gif" ∉ IMG_EXTS) ∧
    visit_image "diagram.gif" "<img/>" wrapNone [] [] = ([] ++ ["<img/>"], []) :=
  ⟨Or.inl (by decide),
   visit_image_c10 "https://example.com/img.png" "<img/>" wrapNone ["x"] []
     (Or.inl (by decide)),
   Or.inr (by decide),
   visit_image_c10 "diagram.gif" "<img/>" wrapNone [] []
     (Or.inr (by decide))⟩

/-! ## Conversion-chain lemmas -/

theorem runChain_eq_self {l : List Attempt}
    (h : ∀ a ∈ l, a.outcome ≠ Outcome.succeeded) : runChain l = l := by
  induction l with
  | nil => rfl
  | cons a t ih =>
    rw [runChain, if_neg (h a (List.mem_cons_self a t))]
    rw [ih (fun x hx => h x (List.mem_cons_of_mem a hx))]

theorem runChain_take (l : List Attempt) :
    ∃ k, runChain l = l.take k := by
  induction l with
  | nil => exact ⟨0, rfl⟩
  | cons a t ih =>
    by_cases h : a.outcome = Outcome.succeeded
    · exact ⟨1, by simp [runChain, h]⟩
    · obtain ⟨k, hk⟩ := ih
      exact ⟨k + 1, by simp [runChain, h, hk]⟩

theorem runChain_succ_count (l : List Attempt) :
    (runChain l).countP (fun a => decide (a.outcome = Outcome.succeeded)) ≤ 1 := by
  induction l with
  | nil => simp [runChain]
  | cons a t ih =>
    by_cases h : a.outcome = Outcome.succeeded
    · simp [runChain, h, List.countP_cons]
    · rw [runChain, if_neg h, List.countP_cons]
      simp [h, ih]

theorem runChain_dropLast (l : List Attempt) :
    ∀ a ∈ (runChain l).dropLast, a.outcome ≠ Outcome.succeeded := by
  induction l with
  | nil => simp [runChain]
  | cons a t ih =>
    by_cases h : a.outcome = Outcome.succeeded
    · simp [runChain, h]
    · intro x hx
      rw [runChain, if_neg h] at hx
      cases hrt : runChain t with
      | nil => rw [hrt] at hx; simp at hx
      | cons b u =>
        rw [hrt, List.dropLast_cons₂] at hx
        rcases List.mem_cons.mp hx with rfl | hx2
        · exact h
        · exact ih x (by rw [hrt]; exact hx2)

theorem chainStep_no_success (l : List Attempt) :
    ∀ (log : List String) (flag : Bool),
      (∀ a ∈ l, a.outcome ≠ Outcome.succeeded) →
      chainStep l log flag =
        if flag || l.any (fun a => decide (a.outcome = Outcome.failed)) then
          ChainResult.failedConversionError (errHeader :: (log ++ chainLog l))
        else ChainResult.noToolError [errHeader, noToolMsg] := by
  induction l with
  | nil => intro log flag h; simp [chainStep, chainLog]
  | cons a t ih =>
    intro log flag h
    have ha : a.outcome ≠ Outcome.succeeded := h a (List.mem_cons_self a t)
    rw [chainStep, if_neg ha]
    rw [ih (log ++ a.logLines) _ (fun x hx => h x (List.mem_cons_of_mem a hx))]
    simp only [chainLog, List.map_cons, List.flatten_cons, List.any_cons,
      List.append_assoc, Bool.or_assoc]

theorem chainStep_of_success (l : List Attempt) :
    ∀ (log : List String) (flag : Bool) (a : Attempt), a ∈ runChain l →
      a.outcome = Outcome.succeeded →
      chainStep l log flag = ChainResult.converted a.title := by
  induction l with
  | nil => intro log flag a ha _; simp [runChain] at ha
  | cons b t ih =>
    intro log flag a ha hsucc
    by_cases hb : b.outcome = Outcome.succeeded
    · rw [runChain, if_pos hb] at ha
      simp at ha
      subst ha
      rw [chainStep, if_pos hb]
    · rw [runChain, if_neg hb] at ha
      rcases List.mem_cons.mp ha with rfl | ha2
      · exact absurd hsucc hb
      · rw [chainStep, if_neg hb]
        exact ih _ _ a ha2 hsucc

theorem overrideAttempt_title (t n : String) (p : Option String) (e : Env) :
    (overrideAttempt t n p e).title = t := by
  cases p with
  | none => rfl
  | some q =>
    unfold overrideAttempt
    dsimp only
    split_ifs with h1 h2
    · rfl
    · cases henv : e.run q <;> simp [henv]
    · rfl

theorem libAttempt_title (t : String) (b : LibBehavior) :
    (libAttempt t b).title = t := by
  cases b with
  | missing m => rfl
  | runs r => cases r <;> rfl

theorem sysAttempt_title (t n bin : String) (e : Env) :
    (sysAttempt t n bin e).title = t := by
  unfold sysAttempt
  split_ifs with h1
  · cases henv : e.run bin <;> simp [henv]
  · rfl

theorem sphinxAttempt_title (t ns nf : String) (p : Option String) (e : Env) :
    (sphinxAttempt t ns nf p e).title = t := by
  cases p with
  | none => rfl
  | some q =>
    unfold sphinxAttempt
    dsimp only
    split_ifs with h1 h2
    · rfl
    · cases henv : e.run q <;> simp [henv]
    · rfl

theorem chainAttempts_titles (env : Env) :
    (chainAttempts env).map Attempt.title =
      expectedTitles ++
        (match env.sphinx with
         | none => []
         | some _ => ["Inkscape", "rsvg-convert"]) := by
  cases hs : env.sphinx with
  | none =>
    simp [chainAttempts, hs, expectedTitles, overrideAttempt_title,
      sysAttempt_title, libAttempt_title]
  | some cfg =>
    simp [chainAttempts, hs, expectedTitles, overrideAttempt_title,
      sysAttempt_title, libAttempt_title, sphinxAttempt_title]

theorem chain_error_split (env : Env)
    (hnosucc : ∀ a ∈ chainAttempts env, a.outcome ≠ Outcome.succeeded) :
    ((∀ a ∈ chainAttempts env, a.outcome ≠ Outcome.failed) →
      svg_to_png env = ChainResult.noToolError [errHeader, noToolMsg]) ∧
    ((∃ a ∈ chainAttempts env, a.outcome = Outcome.failed) →
      svg_to_png env =
        ChainResult.failedConversionError
          (errHeader :: chainLog (chainAttempts env))) := by
  have hstep := chainStep_no_success (chainAttempts env) [] false hnosucc
  rw [List.nil_append] at hstep
  constructor
  · intro hnofail
    unfold svg_to_png
    rw [hstep, if_neg ?_]
    simp only [Bool.false_or, List.any_eq_true, decide_eq_true_eq]
    rintro ⟨a, ha, hfail⟩
    exact hnofail a ha hfail
  · intro hfail
    unfold svg_to_png
    rw [hstep, if_pos ?_]
    simp only [Bool.false_or, List.any_eq_true, decide_eq_true_eq]
    obtain ⟨a, ha, h⟩ := hfail
    exact ⟨a, ha, h⟩

/-! ## Claims C5, C6 and C7 -/

set_option maxRecDepth 40000 in
/-- Claim C5 counterexample: with no tool available at all, the attempt
log does record each tool's specific reason (the first line is Inkscape's
"not set"), but the raised `NoToolError` carries only the fixed generic
hint — its caller-visible text does not contain the per-attempt reasons,
contradicting "in either case the caller-visible diagnostic text
enumerates every attempted tool with its specific failure reason". -/
theorem svg_to_png_c5_counterexample :
    svg_to_png envNone = ChainResult.noToolError [errHeader, noToolMsg] ∧
    "    - Inkscape: inkscape_path not set" ∈ chainLog (chainAttempts envNone) ∧
    "    - Inkscape: inkscape_path not set" ∉ [errHeader, noToolMsg] := by
  refine ⟨by decide, by decide, by decide⟩

/-- Claim C5 as amended: in a fully failing run, if every attempt ended as
`NotSet`, `NotFound` or a library-import failure the raised error is
`NoToolError`, whose text is the fixed installation hint (without the
per-attempt log); if at least one resolved tool's invocation failed the
raised error is `FailedConversionError`, whose text concatenates the full
per-attempt log enumerating every attempted tool with its specific
failure reason. -/
theorem svg_to_png_c5 (env : Env)
    (hnosucc : ∀ a ∈ chainAttempts env, a.outcome ≠ Outcome.succeeded) :
    ((∀ a ∈ chainAttempts env,
        a.outcome = Outcome.notSet ∨ a.outcome = Outcome.notFound ∨
          a.outcome = Outcome.importFailed) →
      svg_to_png env = ChainResult.noToolError [errHeader, noToolMsg]) ∧
    ((∃ a ∈ chainAttempts env, a.outcome = Outcome.failed) →
      svg_to_png env =
        ChainResult.failedConversionError
          (errHeader :: chainLog (chainAttempts env))) := by
  have h := chain_error_split env hnosucc
  refine ⟨fun hall => h.1 ?_, h.2⟩
  intro a ha
  rcases hall a ha with h1 | h1 | h1 <;> simp [h1]

set_option maxRecDepth 40000 in
/-- Witness for the amended C5: a run where the overridden Inkscape
resolves but fails raises `FailedConversionError` carrying the full log. -/
theorem svg_to_png_c5_witness :
    svg_to_png envFail =
      ChainResult.failedConversionError
        (errHeader :: chainLog (chainAttempts envFail)) :=
  (svg_to_png_c5 envFail (by decide)).2 (by decide)

set_option maxRecDepth 40000 in
/-- Claim C6 counterexample: with exactly one caller-overridden tool whose
path is not executable (and nothing else available), the claim expects the
`ConversionFailed`-class error identifying `NotFound`.  The code raises
`NoToolError`: a `NotFound` attempt never sets `a_command_exists`.  (The
first chain attempt is indeed Inkscape's `NotFound`.) -/
theorem svg_to_png_c6_counterexample :
    svg_to_png envOverrideNF = ChainResult.noToolError [errHeader, noToolMsg] ∧
    isFailedConversion (svg_to_png envOverrideNF) = false ∧
    (chainAttempts envOverrideNF).head?.map Attempt.outcome =
      some Outcome.notFound := by
  refine ⟨by decide, by decide, by decide⟩

/-- Claim C6 as amended: a run in which every attempt ends as `NotSet`,
`NotFound` or a library-import failure raises `NoToolError` — both with
zero available tools and no overrides, and with a single override pointing
at a non-executable path: `NotFound` attempts do not count as an available
tool. -/
theorem svg_to_png_c6 (env : Env)
    (h : ∀ a ∈ chainAttempts env,
      a.outcome = Outcome.notSet ∨ a.outcome = Outcome.notFound ∨
        a.outcome = Outcome.importFailed) :
    svg_to_png env = ChainResult.noToolError [errHeader, noToolMsg] := by
  have hnosucc : ∀ a ∈ chainAttempts env, a.outcome ≠ Outcome.succeeded := by
    intro a ha
    rcases h a ha with h1 | h1 | h1 <;> simp [h1]
  refine (chain_error_split env hnosucc).1 ?_
  intro a ha
  rcases h a ha with h1 | h1 | h1 <;> simp [h1]

set_option maxRecDepth 40000 in
/-- Witness for the amended C6 at the nonexistent-override environment. -/
theorem svg_to_png_c6_witness :
    svg_to_png envOverrideNF = ChainResult.noToolError [errHeader, noToolMsg] :=
  svg_to_png_c6 envOverrideNF (by decide)

/-- Claim C7 (confirmed): the attempts are exactly the fixed priority
sequence (caller overrides inkscape / rsvg-convert / svgexport /
imagemagick, then cairosvg and svglib, then the system binaries including
the legacy `rsvg` and `convert` names, then — when a Sphinx app is
present — the two Sphinx-configured binaries); the executed attempts are
a prefix of that sequence; at most one attempt ever succeeds; every
executed attempt except possibly the last is a non-success; and whenever
the executed prefix ends in a success the call returns that attempt's
conversion, trying nothing further. -/
theorem svg_to_png_c7 (env : Env) :
    ((chainAttempts env).map Attempt.title =
      expectedTitles ++
        (match env.sphinx with
         | none => []
         | some _ => ["Inkscape", "rsvg-convert"])) ∧
    (∃ k, runChain (chainAttempts env) = (chainAttempts env).take k) ∧
    (runChain (chainAttempts env)).countP
      (fun a => decide (a.outcome = Outcome.succeeded)) ≤ 1 ∧
    (∀ a ∈ (runChain (chainAttempts env)).dropLast,
      a.outcome ≠ Outcome.succeeded) ∧
    (∀ a ∈ runChain (chainAttempts env), a.outcome = Outcome.succeeded →
      svg_to_png env = ChainResult.converted a.title) :=
  ⟨chainAttempts_titles env, runChain_take _, runChain_succ_count _,
   runChain_dropLast _,
   fun a ha hsucc => chainStep_of_success (chainAttempts env) [] false a ha hsucc⟩

set_option maxRecDepth 40000 in
/-- Witness for C7: with only cairosvg available the chain converts via
cairosvg, and the executed attempts are exactly the first five (the four
overrides and the succeeding cairosvg attempt). -/
theorem svg_to_png_c7_witness :
    (runChain (chainAttempts envLib)).countP
      (fun a => decide (a.outcome = Outcome.succeeded)) ≤ 1 ∧
    svg_to_png envLib = ChainResult.converted "cairosvg" ∧
    runChain (chainAttempts envLib) = (chainAttempts envLib).take 5 :=
  ⟨(svg_to_png_c7 envLib).2.2.1, by decide, by decide⟩
